import Mathlib

/-
Verification of the MQTT event handler plugin (src/events/janus_mqttevh.c)
against its natural-language specification.

The development shallowly embeds the plugin code: each C function that a
claim depends on is translated into an executable Lean definition, with
pointers modelled as Option values, reference-count operations counted
explicitly, and the background handler thread modelled as an interleaved
small-step transition system over explicit scheduler actions.
-/

namespace Mqttevh

/-- The constant JANUS_MQTTEVH_PACKAGE from the source. -/
def JANUS_MQTTEVH_PACKAGE : String := "janus.eventhandler.mqttevh"

/-- The constant DEFAULT_BASETOPIC from the source. -/
def DEFAULT_BASETOPIC : String := "/janus/events"

/- ------------------------------------------------------------------ -/
/- Topic derivation (janus_mqttevh_handler, lines 882-891)            -/
/- ------------------------------------------------------------------ -/

/-- What the C `%s` conversion of snprintf prints for a possibly-NULL
`const char *`: the string itself when non-NULL; for NULL the behaviour is
undefined by the C standard, and glibc (the platform libc) prints the six
characters `(null)`.  `none` models a NULL `char *`. -/
def cstr_fmt : Option String → String
  | some s => s
  | none => "(null)"

/-- Topic computed by janus_mqttevh_handler for one event (lines 882-891):
when `ctx->addevent` is set the code runs
`snprintf(topicbuf, sizeof(topicbuf), "%s/%s", ctx->publish.topic, event_type_to_label(type))`
and publishes to `topicbuf`; otherwise it publishes to `ctx->publish.topic`
unmodified.  `labelOf` is the (possibly NULL) result of
`event_type_to_label(type)`, a pure host-side mapping that lives outside
this repository; the derivation itself is taken verbatim from the source. -/
def handler_topic (addevent : Bool) (base : String) (labelOf : Option String) : String :=
  if addevent then base ++ "/" ++ cstr_fmt labelOf else base

/- ------------------------------------------------------------------ -/
/- janus_mqttevh_send_message (lines 226-269)                         -/
/- ------------------------------------------------------------------ -/

/-- Observable outcome of one janus_mqttevh_send_message call: the returned
int, how many times `json_decref(message)` ran, and how many times
`janus_mqttevh_client_publish_message` was invoked. -/
structure SendRes where
  ret : Int
  decrefs : Nat
  publishCalls : Nat
deriving DecidableEq, Repr

/-- janus_mqttevh_send_message (lines 226-269).  `message` and `context`
are the two pointer arguments (`none` = NULL); `serializeOk` is whether
`json_dumps` returns non-NULL; `publish_rc` is the code returned by
`janus_mqttevh_client_publish_message`, which the source only compares for
logging (line 262) and never propagates.  Control flow, in source order:
NULL message returns -1 untouched; NULL context decrefs the message and
returns -1; a failed serialization decrefs and returns 0; otherwise the
message is decrefed once (line 258), published once (line 260) and the
function returns 0 whatever `publish_rc` was. -/
def janus_mqttevh_send_message (message : Option Nat) (context : Option Nat)
    (serializeOk : Bool) (publish_rc : Int) : SendRes :=
  match message with
  | none => { ret := -1, decrefs := 0, publishCalls := 0 }
  | some _ =>
    match context with
    | none => { ret := -1, decrefs := 1, publishCalls := 0 }
    | some _ =>
      if !serializeOk then
        { ret := 0, decrefs := 1, publishCalls := 0 }
      else
        { ret := 0, decrefs := 1, publishCalls := 1 }

/- ------------------------------------------------------------------ -/
/- Connect-failure decoding (lines 346-362 and 745-758)               -/
/- ------------------------------------------------------------------ -/

/-- The `switch(rc)` decoding a failed MQTTAsync_connect initiation into a
reason string.  The same switch appears verbatim twice in the source, in
janus_mqttevh_init (lines 745-758) and in
janus_mqttevh_client_reconnect_success (lines 349-362); the strings below,
including the `authroized` typo, are copied from the source. -/
def connect_error_string (rc : Int) : String :=
  if rc = 1 then "Connection refused - protocol version"
  else if rc = 2 then "Connection refused - identifier rejected"
  else if rc = 3 then "Connection refused - server unavailable"
  else if rc = 4 then "Connection refused - bad credentials"
  else if rc = 5 then "Connection refused - not authroized"
  else "Connection refused - unknown error"

/- ------------------------------------------------------------------ -/
/- Connection-manager callback chain (lines 280-376)                  -/
/- ------------------------------------------------------------------ -/

/-- The spec's Connection State abstraction (§3): the code keeps no state
variable, so these labels name which phase of the callback chain of
lines 280-376 the manager is in (§4.4 of the spec fixes the mapping):
Connecting while an MQTTAsync_connect issued by
janus_mqttevh_client_connect is in flight, Connected once
janus_mqttevh_client_connect_success has run, Reconnecting while the
MQTTAsync_disconnect issued by janus_mqttevh_client_reconnect is in
flight. -/
inductive ConnState where
  | Disconnected
  | Connecting
  | Connected
  | Reconnecting
  | Disconnecting
  | Destroyed
deriving DecidableEq, Repr

/-- One message published to the broker: topic plus the key/value pairs of
the JSON object body (order preserved, as the source builds it). -/
structure PubMsg where
  topic : String
  body : List (String × String)
deriving DecidableEq, Repr

/-- Connection manager as observed through the callback chain: current
phase and the list of messages published so far, in order. -/
structure ConnMachine where
  state : ConnState
  published : List PubMsg
deriving DecidableEq, Repr

/-- The status message built by janus_mqttevh_client_connect_success
(lines 305-312): body `event=connected`, `eventhandler=JANUS_MQTTEVH_PACKAGE`,
topic `snprintf("%s/%s", ctx->publish.topic, "status")`. -/
def connectedStatus (base : String) : PubMsg :=
  { topic := base ++ "/" ++ "status",
    body := [("event", "connected"), ("eventhandler", JANUS_MQTTEVH_PACKAGE)] }

/-- janus_mqttevh_client_connect (lines 280-295): fills the connect options
(registering janus_mqttevh_client_connect_success / _failure as callbacks)
and issues MQTTAsync_connect, putting the manager in the Connecting
phase.  The initiation return code is handled at each call site. -/
def janus_mqttevh_client_connect (m : ConnMachine) : ConnMachine :=
  { m with state := ConnState.Connecting }

/-- janus_mqttevh_client_connect_success (lines 298-315): the manager is
now Connected and exactly one status message (`connectedStatus`) is sent
through janus_mqttevh_send_message to `ctx->publish.topic ++ "/status"`. -/
def janus_mqttevh_client_connect_success (base : String) (m : ConnMachine) : ConnMachine :=
  { state := ConnState.Connected,
    published := m.published ++ [connectedStatus base] }

/-- janus_mqttevh_client_reconnect (lines 327-337): issues
MQTTAsync_disconnect with janus_mqttevh_client_reconnect_success / _failure
as callbacks; per §4.4 this is the Connected to Reconnecting transition. -/
def janus_mqttevh_client_reconnect (m : ConnMachine) : ConnMachine :=
  { m with state := ConnState.Reconnecting }

/-- janus_mqttevh_client_reconnect_success (lines 340-370): the disconnect
finished, so a fresh janus_mqttevh_client_connect is issued; `connect_rc`
is its return code.  On a non-success code the decoded reason (the switch
of lines 349-362, i.e. `connect_error_string`) is logged and the function
returns.  On success the source builds a `connected` info object but the
send of line 369 is commented out, so nothing is published here.  Returns
the machine and the logged reason, if any. -/
def janus_mqttevh_client_reconnect_success (connect_rc : Int) (m : ConnMachine) :
    ConnMachine × Option String :=
  let m1 := janus_mqttevh_client_connect m
  if connect_rc ≠ 0 then (m1, some (connect_error_string connect_rc))
  else (m1, none)

/-- janus_mqttevh_client_connect_failure (lines 317-324), the asynchronous
failure callback registered with MQTTAsync_connect.  Its whole body reads
`rc = response ? response->code : 0` and logs one line; it performs no
decoding of the code.  The result is that logged line, with the `%d`
conversion of the format string applied to `rc` (the trailing newline of
the format is kept). -/
def janus_mqttevh_client_connect_failure (response : Option Int) : String :=
  "MQTT EVH client has failed connecting to the broker, return code: "
    ++ toString (match response with | some code => code | none => 0)
    ++ ". Reconnecting...\n"

/-- janus_mqttevh_client_reconnect_failure (lines 373-376), the
asynchronous failure callback registered with the reconnect disconnect:
like the connect-failure callback it logs only the raw numeric code,
decoding nothing.  The result is the logged line. -/
def janus_mqttevh_client_reconnect_failure (response : Option Int) : String :=
  "MQTT EVH client failed reconnecting to MQTT broker, return code: "
    ++ toString (match response with | some code => code | none => 0)
    ++ "\n"

/-- Whether `needle` occurs at the head of `hay` (character lists). -/
def leadsList : List Char → List Char → Bool
  | [], _ => true
  | _ :: _, [] => false
  | a :: as, b :: bs => a == b && leadsList as bs

/-- Whether `needle` occurs as a contiguous run anywhere inside `hay`
(character lists); used to state that a log line does not mention a given
reason string. -/
def occursIn (needle hay : List Char) : Bool :=
  match hay with
  | [] => leadsList needle []
  | _ :: t => leadsList needle hay || occursIn needle t

/-- The four successive manager snapshots of the reconnect scenario of
claim C2, built from the embedded callback chain: an initial connect
succeeds (`janus_mqttevh_client_connect_success`), the host requests an
explicit reconnect (`janus_mqttevh_client_reconnect`), the disconnect
completes and re-issues the connect
(`janus_mqttevh_client_reconnect_success`, initiation code 0 = success),
and finally the fresh connect succeeds. -/
def reconnectScenario0 (base : String) : ConnMachine :=
  janus_mqttevh_client_connect_success base
    { state := ConnState.Connecting, published := [] }

/-- Second snapshot: after the explicit reconnect request. -/
def reconnectScenario1 (base : String) : ConnMachine :=
  janus_mqttevh_client_reconnect (reconnectScenario0 base)

/-- Third snapshot: after the disconnect completed and the fresh connect
was issued successfully. -/
def reconnectScenario2 (base : String) : ConnMachine :=
  (janus_mqttevh_client_reconnect_success 0 (reconnectScenario1 base)).1

/-- Fourth snapshot: after the fresh connect succeeded. -/
def reconnectScenario3 (base : String) : ConnMachine :=
  janus_mqttevh_client_connect_success base (reconnectScenario2 base)

/- ------------------------------------------------------------------ -/
/- Teardown (janus_mqttevh_client_destroy_context, lines 459-480,     -/
/- and the disconnect callbacks, lines 389-406)                       -/
/- ------------------------------------------------------------------ -/

/-- The heap-allocated members of janus_mqttevh_context that
janus_mqttevh_client_destroy_context conditionally frees (`none` = the
corresponding pointer field is NULL). -/
structure CtxFields where
  publish_topic : Option String
  username : Option String
  password : Option String
deriving DecidableEq, Repr

/-- Which release operations janus_mqttevh_client_destroy_context
performed: MQTTAsync_destroy on the client handle, g_free on each
non-NULL string field, and g_free on the context struct itself. -/
structure DestroyRes where
  freed_client : Bool
  freed_topic : Bool
  freed_username : Bool
  freed_password : Bool
  freed_ctx : Bool
deriving DecidableEq, Repr

/-- janus_mqttevh_client_destroy_context (lines 459-480).  The argument is
the value of `*ptr`, the pointed-to context reference; the first component
of the result is the value of `*ptr` when the function returns.  When the
reference is non-NULL the client handle, the non-NULL string fields and the
struct are released and then `*ptr = NULL` is executed (line 476); after
that assignment the source touches the context no further (the remaining
statement logs a constant string).  A NULL reference releases nothing. -/
def janus_mqttevh_client_destroy_context (ptr : Option CtxFields) :
    Option CtxFields × DestroyRes :=
  match ptr with
  | some ctx =>
      (none,
       { freed_client := true,
         freed_topic := ctx.publish_topic.isSome,
         freed_username := ctx.username.isSome,
         freed_password := ctx.password.isSome,
         freed_ctx := true })
  | none =>
      (none,
       { freed_client := false, freed_topic := false, freed_username := false,
         freed_password := false, freed_ctx := false })

/-- janus_mqttevh_client_disconnect_success (lines 389-396): logs and calls
janus_mqttevh_client_destroy_context on the callback's context reference. -/
def janus_mqttevh_client_disconnect_success (context : Option CtxFields) :
    Option CtxFields × DestroyRes :=
  janus_mqttevh_client_destroy_context context

/-- janus_mqttevh_client_disconnect_failure (lines 399-406): logs the
failure code `rc` and then, exactly like the success callback, calls
janus_mqttevh_client_destroy_context on the context reference. -/
def janus_mqttevh_client_disconnect_failure (rc : Int) (context : Option CtxFields) :
    Option CtxFields × DestroyRes :=
  janus_mqttevh_client_destroy_context context

/- ------------------------------------------------------------------ -/
/- Event queue, producer and dispatcher thread                        -/
/- (janus_mqttevh_incoming_event lines 825-833,                       -/
/-  janus_mqttevh_destroy lines 795-820,                              -/
/-  janus_mqttevh_handler lines 846-897)                              -/
/- ------------------------------------------------------------------ -/

/-- One slot of the GAsyncQueue `events`: either a real event record
(identified by a Nat, standing for the json_t pointer) or the address of
the static `exit_event` sentinel, which is only ever compared by
identity. -/
inductive QItem where
  | ev (e : Nat)
  | exitEv
deriving DecidableEq, Repr

/-- The real event records held in a queue, in order (the sentinel is not
an event record). -/
def realEvts : List QItem → List Nat
  | [] => []
  | QItem.ev e :: rest => e :: realEvts rest
  | QItem.exitEv :: rest => realEvts rest

/-- Global state shared by the producer, janus_mqttevh_destroy and the
handler thread: the `initialized` and `stopping` atomics, the `events`
queue, the sequence of records the handler has handed to
janus_mqttevh_send_message so far, and whether the handler loop has been
left. -/
structure EvhState where
  initialized : Bool
  stopping : Bool
  queue : List QItem
  processed : List Nat
  handlerExited : Bool
deriving DecidableEq, Repr

/-- State right after a successful janus_mqttevh_init: initialized set,
stopping clear, queue freshly created, handler thread started and still in
its loop. -/
def initState : EvhState :=
  { initialized := true, stopping := false, queue := [], processed := [],
    handlerExited := false }

/-- janus_mqttevh_incoming_event (lines 825-833) in isolation, with the
two atomics passed explicitly: when `stopping` is set or `initialized` is
clear the source runs `json_decref(event)` and returns without touching
the queue; otherwise it runs `json_incref(event)` and pushes the record.
Result: the queue after the call, and whether `json_decref(event)` ran. -/
def janus_mqttevh_incoming_event (stopping initialized : Bool)
    (queue : List QItem) (e : Nat) : List QItem × Bool :=
  if stopping || !initialized then (queue, true)
  else (queue ++ [QItem.ev e], false)

/-- janus_mqttevh_incoming_event (lines 825-833) acting on the shared
state: when `stopping` is set or `initialized` is clear the record is
decrefed and dropped; otherwise it is increfed and pushed on the queue. -/
def submitStep (s : EvhState) (e : Nat) : EvhState :=
  if s.stopping || !s.initialized then s
  else { s with queue := s.queue ++ [QItem.ev e] }

/-- The shutdown-begin part of janus_mqttevh_destroy (lines 797-804): if
never initialized, return; otherwise set `stopping` and push `&exit_event`
on the queue.  The subsequent g_thread_join is modelled by letting the
handler run (dispatchStep actions) after this action. -/
def destroyBeginStep (s : EvhState) : EvhState :=
  if !s.initialized then s
  else { s with stopping := true, queue := s.queue ++ [QItem.exitEv] }

/-- One iteration of the janus_mqttevh_handler loop (lines 853-894),
atomically: re-check the loop condition `initialized && !stopping`
(exit the loop when it fails); pop the queue (g_async_queue_pop blocks on
an empty queue, modelled as a stutter); leave the loop on the sentinel;
otherwise derive the label and, under the `!stopping` guard of line 882,
hand the record to janus_mqttevh_send_message (recorded in `processed`). -/
def dispatchStep (s : EvhState) : EvhState :=
  if s.handlerExited then s
  else if !(s.initialized && !s.stopping) then { s with handlerExited := true }
  else
    match s.queue with
    | [] => s
    | QItem.exitEv :: rest => { s with queue := rest, handlerExited := true }
    | QItem.ev e :: rest =>
        { s with queue := rest,
                 processed := if !s.stopping then s.processed ++ [e] else s.processed }

/-- Scheduler actions: the host thread submitting a record, the host
thread calling janus_mqttevh_destroy (its shutdown-begin part), or the
handler thread performing one loop iteration. -/
inductive Act where
  | submit (e : Nat)
  | destroyBegin
  | dstep
deriving DecidableEq, Repr

/-- Effect of one scheduler action. -/
def step (s : EvhState) : Act → EvhState
  | Act.submit e => submitStep s e
  | Act.destroyBegin => destroyBeginStep s
  | Act.dstep => dispatchStep s

/-- Run a sequence of scheduler actions. -/
def run (s : EvhState) : List Act → EvhState
  | [] => s
  | a :: rest => run (step s a) rest

/-- The host submitting a list of records, in order. -/
def submits (es : List Nat) : List Act := es.map Act.submit

/-- `k` handler-loop iterations. -/
def dsteps (k : Nat) : List Act := List.replicate k Act.dstep

/-- The records a schedule submits, in submission order (whether or not
the producer accepts them). -/
def submittedEvents : List Act → List Nat
  | [] => []
  | Act.submit e :: rest => e :: submittedEvents rest
  | Act.destroyBegin :: rest => submittedEvents rest
  | Act.dstep :: rest => submittedEvents rest

/-- A schedule in which the handler thread dequeues each record right
after it is submitted, before shutdown begins. -/
def interleavedSchedule : List Nat → List Act
  | [] => []
  | e :: es => Act.submit e :: Act.dstep :: interleavedSchedule es

/-- Submit each record and let the handler process it at once, then begin
shutdown and give the handler one more iteration to observe the flag. -/
def drainSchedule (es : List Nat) : List Act :=
  interleavedSchedule es ++ [Act.destroyBegin, Act.dstep]

/- ------------------------------------------------------------------ -/
/- Helper lemmas                                                      -/
/- ------------------------------------------------------------------ -/

/-- Running a concatenation of action lists runs them in sequence. -/
theorem run_append (l1 l2 : List Act) (s : EvhState) :
    run s (l1 ++ l2) = run (run s l1) l2 := by
  induction l1 generalizing s with
  | nil => rfl
  | cons a l1 ih => simpa [run] using ih (step s a)

/-- While the system is initialized and not stopping, submissions append
to the queue in order and touch nothing else. -/
theorem run_submits (es : List Nat) (s : EvhState) (hs : s.stopping = false)
    (hi : s.initialized = true) :
    run s (submits es) = { s with queue := s.queue ++ es.map QItem.ev } := by
  induction es generalizing s with
  | nil => simp [submits, run]
  | cons e es ih =>
      have h1 : step s (Act.submit e) = { s with queue := s.queue ++ [QItem.ev e] } := by
        simp [step, submitStep, hs, hi]
      calc run s (submits (e :: es))
          = run { s with queue := s.queue ++ [QItem.ev e] } (submits es) := by
            rw [show run s (submits (e :: es))
                = run (step s (Act.submit e)) (submits es) from rfl, h1]
        _ = { s with queue := (s.queue ++ [QItem.ev e]) ++ es.map QItem.ev } :=
            ih { s with queue := s.queue ++ [QItem.ev e] } hs hi
        _ = { s with queue := s.queue ++ (e :: es).map QItem.ev } := by
            simp [List.append_assoc]

/-- One handler-loop iteration preserves the multiset-free accounting
identity: records already handed to publish plus the real records still
queued, in order, never change. -/
theorem dispatchStep_inv (s : EvhState) :
    (dispatchStep s).processed ++ realEvts (dispatchStep s).queue
      = s.processed ++ realEvts s.queue := by
  by_cases h1 : s.handlerExited = true
  · simp [dispatchStep, h1]
  · by_cases h2 : (s.initialized && !s.stopping) = true
    · have hinit : s.initialized = true := (Bool.and_eq_true .. |>.mp h2).1
      have hstop : s.stopping = false := by
        rcases Bool.and_eq_true .. |>.mp h2 with ⟨_, hb⟩
        simpa using hb
      cases hq : s.queue with
      | nil => simp [dispatchStep, h1, h2, hq]
      | cons q rest =>
          cases q with
          | exitEv => simp [dispatchStep, h1, h2, hq, hinit, hstop, realEvts]
          | ev e => simp [dispatchStep, h1, h2, hq, hinit, hstop, realEvts]
    · simp [dispatchStep, h1, h2]

/-- The accounting identity of `dispatchStep_inv`, iterated. -/
theorem run_dsteps_inv (k : Nat) (s : EvhState) :
    (run s (dsteps k)).processed ++ realEvts (run s (dsteps k)).queue
      = s.processed ++ realEvts s.queue := by
  induction k generalizing s with
  | zero => rfl
  | succ k ih =>
      rw [show run s (dsteps (k + 1)) = run (step s Act.dstep) (dsteps k) from rfl,
        ih (step s Act.dstep)]
      exact dispatchStep_inv s

/-- The real records of a queue holding the submitted records followed by
the sentinel are exactly the submitted records. -/
theorem realEvts_scenario (es : List Nat) :
    realEvts (es.map QItem.ev ++ [QItem.exitEv]) = es := by
  induction es with
  | nil => rfl
  | cons e es ih => simp [realEvts, ih]

/-- State reached by submitting `es` from a freshly initialized system and
then beginning shutdown: stopping is set and the queue holds the records
followed by the sentinel. -/
theorem scenario_after_destroy (es : List Nat) :
    run initState (submits es ++ [Act.destroyBegin])
      = { initialized := true, stopping := true,
          queue := es.map QItem.ev ++ [QItem.exitEv], processed := [],
          handlerExited := false } := by
  rw [run_append, run_submits es initState rfl rfl]
  simp [run, step, destroyBeginStep, initState]

/-- Splitting a status topic at the slash. -/
theorem status_topic_append (base : String) :
    base ++ "/" ++ "status" = base ++ "/status" := by
  apply String.ext
  simp [String.data_append]

/-- realEvts distributes over queue concatenation. -/
theorem realEvts_append (l1 l2 : List QItem) :
    realEvts (l1 ++ l2) = realEvts l1 ++ realEvts l2 := by
  induction l1 with
  | nil => rfl
  | cons q l1 ih => cases q <;> simp [realEvts, ih]

/-- No action changes the initialized flag. -/
theorem step_initialized (s : EvhState) (a : Act) :
    (step s a).initialized = s.initialized := by
  cases a with
  | submit e =>
      show (submitStep s e).initialized = s.initialized
      unfold submitStep
      split <;> rfl
  | destroyBegin =>
      show (destroyBeginStep s).initialized = s.initialized
      unfold destroyBeginStep
      split <;> rfl
  | dstep =>
      show (dispatchStep s).initialized = s.initialized
      unfold dispatchStep
      repeat' split
      all_goals rfl

/-- A handler-loop iteration never changes the stopping flag. -/
theorem dstep_stopping (s : EvhState) :
    (step s Act.dstep).stopping = s.stopping := by
  show (dispatchStep s).stopping = s.stopping
  unfold dispatchStep
  repeat' split
  all_goals rfl

/-- Once the stopping flag is set, no action clears it. -/
theorem step_stopping_mono (s : EvhState) (a : Act) (h : s.stopping = true) :
    (step s a).stopping = true := by
  cases a with
  | submit e =>
      show (submitStep s e).stopping = true
      simp [submitStep, h]
  | destroyBegin =>
      show (destroyBeginStep s).stopping = true
      unfold destroyBeginStep
      split
      · exact h
      · rfl
  | dstep => rw [dstep_stopping]; exact h

/-- Once the stopping flag is set, no further record is ever processed
(the producer drops submissions and the handler exits at its loop
condition), and the flag stays set. -/
theorem run_stopped (acts : List Act) (s : EvhState) (h : s.stopping = true) :
    (run s acts).processed = s.processed ∧ (run s acts).stopping = true := by
  induction acts generalizing s with
  | nil => exact ⟨rfl, h⟩
  | cons a acts ih =>
      have h1 : (step s a).stopping = true := step_stopping_mono s a h
      have h2 : (step s a).processed = s.processed := by
        cases a with
        | submit e =>
            show (submitStep s e).processed = s.processed
            simp [submitStep, h]
        | destroyBegin =>
            show (destroyBeginStep s).processed = s.processed
            unfold destroyBeginStep
            split <;> rfl
        | dstep =>
            show (dispatchStep s).processed = s.processed
            unfold dispatchStep
            repeat' split
            all_goals simp_all
      obtain ⟨hp, hs⟩ := ih (step s a) h1
      refine ⟨?_, ?_⟩
      · rw [show run s (a :: acts) = run (step s a) acts from rfl, hp, h2]
      · rw [show run s (a :: acts) = run (step s a) acts from rfl]; exact hs

/-- Any schedule containing a destroyBegin leaves the stopping flag set
(starting from an initialized, not-yet-stopping state or a stopped one). -/
theorem run_stopping_mem (acts : List Act) (s : EvhState) (hi : s.initialized = true)
    (h : Act.destroyBegin ∈ acts ∨ s.stopping = true) :
    (run s acts).stopping = true := by
  induction acts generalizing s with
  | nil =>
      rcases h with h | h
      · simp at h
      · exact h
  | cons a acts ih =>
      have hi2 : (step s a).initialized = true := by rw [step_initialized]; exact hi
      rcases h with h | h
      · rcases List.mem_cons.mp h with h | h
        · refine ih (step s a) hi2 (Or.inr ?_)
          rw [← h]
          unfold step destroyBeginStep
          simp [hi]
        · exact ih (step s a) hi2 (Or.inl h)
      · exact ih (step s a) hi2 (Or.inr (step_stopping_mono s a h))

/-- In every schedule started from an initialized, not-stopping state, the
processed records extend to the pending real records plus the schedule's
submissions: processed is always a prefix, in order, of the submitted
records. -/
theorem run_prefix_aux (acts : List Act) (s : EvhState) (hi : s.initialized = true)
    (hs : s.stopping = false) :
    ∃ rest, (run s acts).processed ++ rest
      = s.processed ++ realEvts s.queue ++ submittedEvents acts := by
  induction acts generalizing s with
  | nil => exact ⟨realEvts s.queue, by simp [run, submittedEvents]⟩
  | cons a acts ih =>
      cases a with
      | submit e =>
          have h1 : step s (Act.submit e) = { s with queue := s.queue ++ [QItem.ev e] } := by
            simp [step, submitStep, hs, hi]
          obtain ⟨r, hr⟩ := ih { s with queue := s.queue ++ [QItem.ev e] } hi hs
          refine ⟨r, ?_⟩
          rw [show run s (Act.submit e :: acts) = run (step s (Act.submit e)) acts from rfl,
            h1, hr]
          simp [realEvts_append, realEvts, submittedEvents, List.append_assoc]
      | destroyBegin =>
          have h1 : step s Act.destroyBegin
              = { s with stopping := true, queue := s.queue ++ [QItem.exitEv] } := by
            simp [step, destroyBeginStep, hi]
          have h2 := (run_stopped acts
            { s with stopping := true, queue := s.queue ++ [QItem.exitEv] } rfl).1
          refine ⟨realEvts s.queue ++ submittedEvents acts, ?_⟩
          rw [show run s (Act.destroyBegin :: acts) = run (step s Act.destroyBegin) acts from rfl,
            h1, h2]
          simp [submittedEvents, List.append_assoc]
      | dstep =>
          have hi2 : (step s Act.dstep).initialized = true := by
            rw [step_initialized]; exact hi
          have hs2 : (step s Act.dstep).stopping = false := by
            rw [dstep_stopping]; exact hs
          obtain ⟨r, hr⟩ := ih (step s Act.dstep) hi2 hs2
          refine ⟨r, ?_⟩
          have hinv : (step s Act.dstep).processed ++ realEvts (step s Act.dstep).queue
              = s.processed ++ realEvts s.queue := dispatchStep_inv s
          rw [show run s (Act.dstep :: acts) = run (step s Act.dstep) acts from rfl, hr,
            hinv]
          simp [submittedEvents]

/-- The drain schedule submits exactly its record list. -/
theorem submittedEvents_drain (es : List Nat) :
    submittedEvents (drainSchedule es) = es := by
  induction es with
  | nil => rfl
  | cons e es ih =>
      simpa [drainSchedule, interleavedSchedule, submittedEvents] using ih

/-- Under the interleaved schedule the handler processes each record right
after its submission, leaving the queue empty. -/
theorem run_interleaved (es : List Nat) (s : EvhState) (hi : s.initialized = true)
    (hs : s.stopping = false) (hq : s.queue = []) (hx : s.handlerExited = false) :
    run s (interleavedSchedule es) = { s with processed := s.processed ++ es } := by
  induction es generalizing s with
  | nil => simp [interleavedSchedule, run]
  | cons e es ih =>
      have h1 : step s (Act.submit e) = { s with queue := [QItem.ev e] } := by
        simp [step, submitStep, hs, hi, hq]
      have h2 : step { s with queue := [QItem.ev e] } Act.dstep
          = { s with queue := [], processed := s.processed ++ [e] } := by
        simp [step, dispatchStep, hx, hi, hs]
      have h3 : run s (interleavedSchedule (e :: es))
          = run { s with queue := [], processed := s.processed ++ [e] }
              (interleavedSchedule es) := by
        rw [show run s (interleavedSchedule (e :: es))
            = run (step (step s (Act.submit e)) Act.dstep) (interleavedSchedule es) from rfl,
          h1, h2]
      rw [h3, ih { s with queue := [], processed := s.processed ++ [e] } hi hs rfl hx]
      simp [hq, List.append_assoc]

/- ------------------------------------------------------------------ -/
/- Claim theorems                                                     -/
/- ------------------------------------------------------------------ -/

/-- C1, amended.  In every interleaving of the host and handler threads
from a freshly initialized state, the records the Dispatcher processes are
a prefix, in submission order, of the records submitted (first conjunct);
inserting a submit anywhere after destroy() has begun shutdown leaves the
whole state, in particular the processed sequence, unchanged for the rest
of the schedule (second conjunct); and when the Dispatcher dequeues each
record before observing the stopping flag it processes exactly all N
submitted records and then exits its loop (third conjunct) - so exactly N
are processed in such drain schedules, while records still queued when the
flag is observed are discarded. -/
theorem C1_shutdown_amended :
    (∀ acts : List Act, ∃ rest,
        (run initState acts).processed ++ rest = submittedEvents acts)
    ∧ (∀ (acts1 acts2 : List Act) (e : Nat), Act.destroyBegin ∈ acts1 →
        run initState (acts1 ++ Act.submit e :: acts2)
          = run initState (acts1 ++ acts2))
    ∧ (∀ es : List Nat,
        (run initState (drainSchedule es)).processed = es
        ∧ (run initState (drainSchedule es)).handlerExited = true
        ∧ submittedEvents (drainSchedule es) = es) := by
  refine ⟨?_, ?_, ?_⟩
  · intro acts
    obtain ⟨r, hr⟩ := run_prefix_aux acts initState rfl rfl
    refine ⟨r, ?_⟩
    rw [hr]
    simp [initState, realEvts]
  · intro acts1 acts2 e hmem
    have hstop : (run initState acts1).stopping = true :=
      run_stopping_mem acts1 initState rfl (Or.inl hmem)
    rw [run_append, run_append,
      show run (run initState acts1) (Act.submit e :: acts2)
        = run (step (run initState acts1) (Act.submit e)) acts2 from rfl,
      show step (run initState acts1) (Act.submit e) = run initState acts1 by
        simp [step, submitStep, hstop]]
  · intro es
    have h1 : run initState (interleavedSchedule es)
        = { initState with processed := es } := by
      simpa [initState] using run_interleaved es initState rfl rfl rfl rfl
    have h2 : run initState (drainSchedule es)
        = { initialized := true, stopping := true, queue := [QItem.exitEv],
            processed := es, handlerExited := true } := by
      rw [drainSchedule, run_append, h1]
      simp [run, step, destroyBeginStep, dispatchStep, initState]
    exact ⟨by rw [h2], by rw [h2], submittedEvents_drain es⟩

/-- Witness for C1_shutdown_amended: a concrete schedule with destroy
already begun, where an extra submission of record 3 changes nothing. -/
theorem C1_shutdown_amended_witness :
    Act.destroyBegin ∈ [Act.destroyBegin]
    ∧ run initState ([Act.destroyBegin] ++ Act.submit 3 :: [Act.dstep])
        = run initState ([Act.destroyBegin] ++ [Act.dstep]) :=
  ⟨by decide, C1_shutdown_amended.2.1 [Act.destroyBegin] [Act.dstep] 3 (by decide)⟩

/-- C1 as stated is false on the code: submit one record (7), begin
shutdown, and let the Dispatcher run; its loop condition sees the stopping
flag, so it exits the loop having processed none of the submitted records
instead of exactly all of them. -/
theorem C1_counterexample :
    (run initState (submits [7] ++ [Act.destroyBegin] ++ dsteps 2)).handlerExited = true
    ∧ (run initState (submits [7] ++ [Act.destroyBegin] ++ dsteps 2)).processed ≠ [7] := by
  decide

/-- C2.  After a successful connect, an explicit reconnect request drives
the manager through Connected, Reconnecting, Connecting, Connected, and
exactly one connected status message is published after the final connect
success (none is published by the reconnect-success callback itself, whose
send is commented out in the source). -/
theorem C2_reconnect_flow (base : String) :
    [(reconnectScenario0 base).state, (reconnectScenario1 base).state,
     (reconnectScenario2 base).state, (reconnectScenario3 base).state]
      = [ConnState.Connected, ConnState.Reconnecting,
         ConnState.Connecting, ConnState.Connected]
    ∧ (reconnectScenario2 base).published = (reconnectScenario0 base).published
    ∧ (reconnectScenario3 base).published
        = (reconnectScenario0 base).published ++ [connectedStatus base] := by
  refine ⟨rfl, ?_, rfl⟩
  show (janus_mqttevh_client_reconnect_success 0 (reconnectScenario1 base)).1.published
      = (reconnectScenario0 base).published
  norm_num [janus_mqttevh_client_reconnect_success, janus_mqttevh_client_connect,
    reconnectScenario1, reconnectScenario0, janus_mqttevh_client_reconnect,
    janus_mqttevh_client_connect_success]

/-- C3.  With the per-event-topic (addevent) policy enabled and a known
event label, the publish topic is the base topic, a slash, and the label;
with the policy disabled it is exactly the base topic; in particular base
/janus/events with label handle gives exactly /janus/events/handle. -/
theorem C3_topic_derivation (base lab : String) (labelOf : Option String) :
    handler_topic true base (some lab) = base ++ "/" ++ lab
    ∧ handler_topic false base labelOf = base
    ∧ handler_topic true DEFAULT_BASETOPIC (some "handle") = "/janus/events/handle" := by
  refine ⟨rfl, rfl, ?_⟩
  decide

/-- C4.  The claim says an unknown event type (NULL label) falls back to
the unsuffixed base topic even with addevent enabled; the code instead
feeds the NULL label to the snprintf %s conversion (undefined behaviour in
C; the platform libc prints `(null)`), producing `/janus/events/(null)`,
which differs from the base topic. -/
theorem C4_null_label_topic :
    handler_topic true DEFAULT_BASETOPIC none = "/janus/events/(null)"
    ∧ handler_topic true DEFAULT_BASETOPIC none ≠ DEFAULT_BASETOPIC := by
  decide

/-- C5.  A record reaching janus_mqttevh_incoming_event while the system
is stopping or not initialized is decrefed, nothing is pushed, and the
queue is unchanged. -/
theorem C5_discard_on_shutdown (stopping initialized : Bool) (q : List QItem) (e : Nat)
    (h : stopping = true ∨ initialized = false) :
    (janus_mqttevh_incoming_event stopping initialized q e).1 = q
    ∧ (janus_mqttevh_incoming_event stopping initialized q e).2 = true := by
  rcases h with h | h <;> simp [janus_mqttevh_incoming_event, h]

/-- Witness for C5_discard_on_shutdown at stopping = true. -/
theorem C5_discard_on_shutdown_witness :
    ((true : Bool) = true ∨ (true : Bool) = false)
    ∧ ((janus_mqttevh_incoming_event true true [] 5).1 = []
        ∧ (janus_mqttevh_incoming_event true true [] 5).2 = true) :=
  ⟨Or.inl rfl, C5_discard_on_shutdown true true [] 5 (Or.inl rfl)⟩

/-- C6.  For a non-NULL message and non-NULL context,
janus_mqttevh_send_message decrefs the record exactly once, returns 0
whatever the serialization outcome and whatever code the publish call
reports, and invokes publish at most once (no retry, no re-queue). -/
theorem C6_release_once (m c : Nat) (serializeOk : Bool) (rc : Int) :
    (janus_mqttevh_send_message (some m) (some c) serializeOk rc).decrefs = 1
    ∧ (janus_mqttevh_send_message (some m) (some c) serializeOk rc).ret = 0
    ∧ (janus_mqttevh_send_message (some m) (some c) serializeOk rc).publishCalls ≤ 1 := by
  cases serializeOk <;> simp [janus_mqttevh_send_message]

/-- C7, amended.  When a connect or reconnect initiation fails
synchronously (MQTTAsync_connect returning non-success in init or inside
the reconnect-success callback) the numeric code is decoded: 4 to bad
credentials, 1, 2, 3 and 5 to their respective reasons, every other code
to the unknown-error reason, without crashing, and the reconnect-success
callback surfaces the decoded reason.  The asynchronous connect-failure
and reconnect-failure callbacks decode nothing: their log line carries
only the raw numeric code (0 for a NULL response). -/
theorem C7_failure_decoding :
    connect_error_string 4 = "Connection refused - bad credentials"
    ∧ connect_error_string 1 = "Connection refused - protocol version"
    ∧ connect_error_string 2 = "Connection refused - identifier rejected"
    ∧ connect_error_string 3 = "Connection refused - server unavailable"
    ∧ connect_error_string 5 = "Connection refused - not authroized"
    ∧ (∀ rc : Int, rc ≠ 1 → rc ≠ 2 → rc ≠ 3 → rc ≠ 4 → rc ≠ 5 →
        connect_error_string rc = "Connection refused - unknown error")
    ∧ (∀ m : ConnMachine,
        (janus_mqttevh_client_reconnect_success 4 m).2
          = some "Connection refused - bad credentials")
    ∧ (∀ code : Int,
        janus_mqttevh_client_connect_failure (some code)
          = "MQTT EVH client has failed connecting to the broker, return code: "
              ++ toString code ++ ". Reconnecting...\n")
    ∧ janus_mqttevh_client_connect_failure none
        = "MQTT EVH client has failed connecting to the broker, return code: "
            ++ toString (0 : Int) ++ ". Reconnecting...\n"
    ∧ (∀ code : Int,
        janus_mqttevh_client_reconnect_failure (some code)
          = "MQTT EVH client failed reconnecting to MQTT broker, return code: "
              ++ toString code ++ "\n") := by
  refine ⟨by decide, by decide, by decide, by decide, by decide, ?_, ?_,
    fun code => rfl, rfl, fun code => rfl⟩
  · intro rc h1 h2 h3 h4 h5
    unfold connect_error_string
    rw [if_neg h1, if_neg h2, if_neg h3, if_neg h4, if_neg h5]
  · intro m
    norm_num [janus_mqttevh_client_reconnect_success, connect_error_string]

/-- Witness for C7_failure_decoding: code 42 decodes to the unknown-error
reason. -/
theorem C7_failure_decoding_witness :
    connect_error_string 42 = "Connection refused - unknown error" :=
  C7_failure_decoding.2.2.2.2.2.1 42 (by decide) (by decide) (by decide)
    (by decide) (by decide)

/-- C7 as stated is false on the code: when the asynchronous
connect-failure callback (one of the claimed sources) receives failure
code 4, its observable output is the log line carrying only the numeric
code, and the bad-credentials reason occurs nowhere in it - that callback
performs no decoding at all. -/
theorem C7_counterexample :
    janus_mqttevh_client_connect_failure (some 4)
      = "MQTT EVH client has failed connecting to the broker, return code: 4. Reconnecting...\n"
    ∧ occursIn ("bad credentials").data
        (janus_mqttevh_client_connect_failure (some 4)).data = false := by
  constructor <;> decide

/-- C8.  Every successful connect publishes exactly one status message,
whose topic is the base topic followed by /status and whose body is the
pairs event=connected and eventhandler=janus.eventhandler.mqttevh. -/
theorem C8_connected_status (base : String) (m : ConnMachine) :
    (janus_mqttevh_client_connect_success base m).published
      = m.published ++ [connectedStatus base]
    ∧ (connectedStatus base).topic = base ++ "/status"
    ∧ (connectedStatus base).body
      = [("event", "connected"), ("eventhandler", "janus.eventhandler.mqttevh")] := by
  exact ⟨rfl, status_topic_append base, rfl⟩

/-- C9.  Both disconnect callbacks, success and failure alike, run
janus_mqttevh_client_destroy_context on their context reference: the
client handle and the context struct are released and the reference the
destructor was given is NULL when it returns, with no further use of the
context after the nulling. -/
theorem C9_teardown (ctx : CtxFields) (rc : Int) :
    (janus_mqttevh_client_disconnect_success (some ctx)).1 = none
    ∧ (janus_mqttevh_client_disconnect_success (some ctx)).2.freed_ctx = true
    ∧ (janus_mqttevh_client_disconnect_success (some ctx)).2.freed_client = true
    ∧ (janus_mqttevh_client_disconnect_failure rc (some ctx)).1 = none
    ∧ (janus_mqttevh_client_disconnect_failure rc (some ctx)).2.freed_ctx = true
    ∧ (janus_mqttevh_client_disconnect_failure rc (some ctx)).2.freed_client = true :=
  ⟨rfl, rfl, rfl, rfl, rfl, rfl⟩

/-- C10.  janus_mqttevh_send_message returns -1 exactly when the message
or the context is NULL; in the NULL-context case the message is decrefed;
in every other case, for every serialization outcome and publish code, it
returns 0, so publish and serialization failures are invisible in the
return value. -/
theorem C10_send_message_return (message context : Option Nat)
    (serializeOk : Bool) (rc : Int) :
    ((janus_mqttevh_send_message message context serializeOk rc).ret = -1
      ↔ (message = none ∨ context = none))
    ∧ (∀ m : Nat, (janus_mqttevh_send_message (some m) none serializeOk rc).decrefs = 1)
    ∧ (∀ m c : Nat, (janus_mqttevh_send_message (some m) (some c) serializeOk rc).ret = 0) := by
  refine ⟨?_, fun m => rfl, fun m c => ?_⟩
  · rcases message with _ | m <;> rcases context with _ | c <;>
      cases serializeOk <;> simp [janus_mqttevh_send_message]
  · cases serializeOk <;> simp [janus_mqttevh_send_message]

end Mqttevh
